import Mathlib

/-!
Shallow embedding of the worker-thread concurrency core of the repository
(file src/worker.rs), together with theorems settling the specification
claims about it.

External collaborators (crate::Runtime, crate::AsyncRuntime, crate::Module,
crate::ModuleHandle, crate::Error, serde_json::Value, std / tokio channels,
std::thread) are not part of src/; they are modelled as opaque data and
capability records, following the specification of the engine capability
interface.
-/

set_option autoImplicit false

namespace Rustyscript

/-- Identifier of a loaded module (deno_core::ModuleId, a machine integer). -/
abbrev ModuleId := Nat

/-- Opaque serialized value (serde_json::Value); the worker protocol never
inspects its structure, so it is modelled as an opaque wrapper. -/
structure JsValue where
  payload : String
deriving DecidableEq, Repr

/-- Module descriptor (crate::Module): a name plus source text, passed through
unexamined by the worker core. -/
structure Module where
  name : String
  source : String
deriving DecidableEq, Repr

/-- Model of crate::Error. The worker code itself only ever constructs the
Runtime variant; JsError stands for every other variant produced by the
engine and carried through the worker unchanged. -/
inductive Error where
  | Runtime (msg : String)
  | JsError (msg : String)
deriving DecidableEq, Repr

/-- Model of crate::ModuleHandle: the engine-owned module context; the worker
only observes its id. -/
structure ModuleHandle where
  id : ModuleId
deriving DecidableEq, Repr

/-- Query types for the default worker (enum DefaultWorkerQuery, worker.rs:78-103). -/
inductive DefaultWorkerQuery where
  | Stop
  | Eval (code : String)
  | LoadMainModule (m : Module)
  | LoadModule (m : Module)
  | CallEntrypoint (id : ModuleId) (args : List JsValue)
  | CallFunction (id : Option ModuleId) (name : String) (args : List JsValue)
  | GetValue (id : Option ModuleId) (name : String)
deriving DecidableEq, Repr

/-- Response types for the default worker (enum DefaultWorkerResponse,
worker.rs:106-118). The Rust variant Ok(()) is the argumentless Ok here. -/
inductive DefaultWorkerResponse where
  | Value (v : JsValue)
  | ModuleId (id : ModuleId)
  | Ok
  | Error (e : Error)
deriving DecidableEq, Repr

/-- Options for the default worker (struct DefaultWorkerOptions, worker.rs:69-75);
Duration is modelled as a Nat of milliseconds. -/
structure DefaultWorkerOptions where
  default_entrypoint : Option String
  timeout : Nat
deriving DecidableEq, Repr

/-- Modelled from the spec: the engine capability interface (section 4.1),
realised in the repository by crate::Runtime and crate::AsyncRuntime, which
are not under src/. Each operation either produces a value (or handle) or an
engine-level failure; the worker treats it as an opaque collaborator. -/
structure Engine where
  eval : String → Except Error JsValue
  load_module : Module → Except Error ModuleHandle
  call_entrypoint : ModuleHandle → List JsValue → Except Error JsValue
  call_function : Option ModuleHandle → String → List JsValue → Except Error JsValue
  get_value : Option ModuleHandle → String → Except Error JsValue

/-- The handle table: HashMap<ModuleId, ModuleHandle> (sync) and
DashMap<ModuleId, ModuleHandle> (async), modelled by an association list with
first-match lookup; insert prepends, which matches HashMap insert
observationally (the newest binding for a key wins). -/
abbrev Modules := List (ModuleId × ModuleHandle)

/-- Lookup in the handle table (HashMap::get / DashMap::get). -/
def Modules.get? (m : Modules) (id : ModuleId) : Option ModuleHandle :=
  List.lookup id m

/-- Insertion into the handle table (HashMap::insert / DashMap::insert). -/
def Modules.insert (m : Modules) (id : ModuleId) (h : ModuleHandle) : Modules :=
  (id, h) :: m

/-- State owned by the sync dispatcher thread:
type Runtime = (crate::Runtime, HashMap<ModuleId, ModuleHandle>) (worker.rs:220-223). -/
abbrev SyncRuntime := Engine × Modules

/-- State owned by the async dispatcher thread:
type Runtime = (crate::AsyncRuntime, DashMap<ModuleId, ModuleHandle>) (worker.rs:605). -/
abbrev AsyncRuntime := Engine × Modules

namespace sync_worker

/-- SyncWorker::handle_query for DefaultWorker (worker.rs:314-390). Returns the
response together with the updated dispatcher state. The engine itself is
modelled as pure, so only the handle table component of the state evolves. -/
def handle_query : SyncRuntime → DefaultWorkerQuery → DefaultWorkerResponse × SyncRuntime
  | (runtime, modules), q =>
    match q with
    | .Stop => (.Ok, (runtime, modules))
    | .Eval code =>
      match runtime.eval code with
      | .ok v => (.Value v, (runtime, modules))
      | .error e => (.Error e, (runtime, modules))
    | .LoadMainModule module =>
      match runtime.load_module module with
      | .ok handle => (.ModuleId handle.id, (runtime, modules.insert handle.id handle))
      | .error e => (.Error e, (runtime, modules))
    | .LoadModule module =>
      match runtime.load_module module with
      | .ok handle => (.ModuleId handle.id, (runtime, modules.insert handle.id handle))
      | .error e => (.Error e, (runtime, modules))
    | .CallEntrypoint id args =>
      match modules.get? id with
      | some handle =>
        match runtime.call_entrypoint handle args with
        | .ok v => (.Value v, (runtime, modules))
        | .error e => (.Error e, (runtime, modules))
      | none => (.Error (.Runtime "Module not found"), (runtime, modules))
    | .CallFunction id name args =>
      match id with
      | some mid =>
        match modules.get? mid with
        | some handle =>
          match runtime.call_function (some handle) name args with
          | .ok v => (.Value v, (runtime, modules))
          | .error e => (.Error e, (runtime, modules))
        | none => (.Error (.Runtime "Module not found"), (runtime, modules))
      | none =>
        match runtime.call_function none name args with
        | .ok v => (.Value v, (runtime, modules))
        | .error e => (.Error e, (runtime, modules))
    | .GetValue id name =>
      match id with
      | some mid =>
        match modules.get? mid with
        | some handle =>
          match runtime.get_value (some handle) name with
          | .ok v => (.Value v, (runtime, modules))
          | .error e => (.Error e, (runtime, modules))
        | none => (.Error (.Runtime "Module not found"), (runtime, modules))
      | none =>
        match runtime.get_value none name with
        | .ok v => (.Value v, (runtime, modules))
        | .error e => (.Error e, (runtime, modules))

end sync_worker

namespace async_worker

/-- AsyncWorker::handle_query for DefaultWorker (worker.rs:700-778). Except for
async plumbing (await points, DashMap entry cloning) its arms are the same as
the sync version; it is translated separately because it is a separate
function in the source. -/
def handle_query : AsyncRuntime → DefaultWorkerQuery → DefaultWorkerResponse × AsyncRuntime
  | (runtime, modules), q =>
    match q with
    | .Stop => (.Ok, (runtime, modules))
    | .Eval code =>
      match runtime.eval code with
      | .ok v => (.Value v, (runtime, modules))
      | .error e => (.Error e, (runtime, modules))
    | .LoadMainModule module =>
      match runtime.load_module module with
      | .ok handle => (.ModuleId handle.id, (runtime, modules.insert handle.id handle))
      | .error e => (.Error e, (runtime, modules))
    | .LoadModule module =>
      match runtime.load_module module with
      | .ok handle => (.ModuleId handle.id, (runtime, modules.insert handle.id handle))
      | .error e => (.Error e, (runtime, modules))
    | .CallEntrypoint id args =>
      match modules.get? id with
      | some handle =>
        match runtime.call_entrypoint handle args with
        | .ok v => (.Value v, (runtime, modules))
        | .error e => (.Error e, (runtime, modules))
      | none => (.Error (.Runtime "Module not found"), (runtime, modules))
    | .CallFunction id name args =>
      match id with
      | some mid =>
        match modules.get? mid with
        | some handle =>
          match runtime.call_function (some handle) name args with
          | .ok v => (.Value v, (runtime, modules))
          | .error e => (.Error e, (runtime, modules))
        | none => (.Error (.Runtime "Module not found"), (runtime, modules))
      | none =>
        match runtime.call_function none name args with
        | .ok v => (.Value v, (runtime, modules))
        | .error e => (.Error e, (runtime, modules))
    | .GetValue id name =>
      match id with
      | some mid =>
        match modules.get? mid with
        | some handle =>
          match runtime.get_value (some handle) name with
          | .ok v => (.Value v, (runtime, modules))
          | .error e => (.Error e, (runtime, modules))
        | none => (.Error (.Runtime "Module not found"), (runtime, modules))
      | none =>
        match runtime.get_value none name with
        | .ok v => (.Value v, (runtime, modules))
        | .error e => (.Error e, (runtime, modules))

end async_worker

/-- Outcome of one run of a dispatcher thread body: either it returned
normally after emitting the given responses, or it terminated abnormally
(an unwrap on a failed channel send). -/
inductive ThreadOutcome where
  | finished (rs : List DefaultWorkerResponse)
  | panicked
deriving DecidableEq, Repr

namespace sync_worker

/-- SyncWorker::thread, the custom impl for DefaultWorker (worker.rs:393-411).
The input list is the sequence of queries the loop dequeues before the query
channel would close; reaching the end of the list models rx.recv() returning
Err (all senders dropped). respReceiverAlive says whether the worker still
holds the response receiver: tx.send(..).unwrap() succeeds when it does and
panics the thread when it does not. On Stop the loop sends Ok and breaks. -/
def thread (respReceiverAlive : Bool) : SyncRuntime → List DefaultWorkerQuery → ThreadOutcome
  | _, [] => .finished []
  | _, .Stop :: _ => if respReceiverAlive then .finished [.Ok] else .panicked
  | rt, q :: qs =>
    if respReceiverAlive then
      match thread respReceiverAlive (handle_query rt q).2 qs with
      | .finished rs => .finished ((handle_query rt q).1 :: rs)
      | .panicked => .panicked
    else .panicked

/-- SyncWorker::thread, the default trait implementation (worker.rs:206-216):
no special Stop case, every dequeued query goes through handle_query and the
response send is unwrapped. -/
def default_thread (respReceiverAlive : Bool) : SyncRuntime → List DefaultWorkerQuery → ThreadOutcome
  | _, [] => .finished []
  | rt, q :: qs =>
    if respReceiverAlive then
      match default_thread respReceiverAlive (handle_query rt q).2 qs with
      | .finished rs => .finished ((handle_query rt q).1 :: rs)
      | .panicked => .panicked
    else .panicked

/-- The response sequence obtained by folding handle_query over a query list,
threading the dispatcher state: the Nth element is handle_query applied to the
Nth query (in the state reached after the first N-1 queries). -/
def processQueries : SyncRuntime → List DefaultWorkerQuery → List DefaultWorkerResponse
  | _, [] => []
  | rt, q :: qs => (handle_query rt q).1 :: processQueries (handle_query rt q).2 qs

end sync_worker

namespace async_worker

/-- The while-let loop of AsyncWorker::thread for DefaultWorker
(worker.rs:790-797), after successful engine construction and the init
signal. The input list is the sequence of queries dequeued before the channel
would close. There is no Stop case: every query goes through handle_query.
A failed response send is logged and breaks the loop (no unwrap here). -/
def threadLoop (respReceiverAlive : Bool) : AsyncRuntime → List DefaultWorkerQuery → List DefaultWorkerResponse
  | _, [] => []
  | rt, q :: qs =>
    if respReceiverAlive then
      (handle_query rt q).1 :: threadLoop respReceiverAlive (handle_query rt q).2 qs
    else []

end async_worker

/-- The protocol error each public adapter operation returns when the received
response has an unexpected tag (worker.rs:436-438 and the matching arms of
the other operations). -/
def protocolError : Error := .Runtime "Unexpected response from the worker"

/-- Tag test: is this response a Value. -/
def DefaultWorkerResponse.isValue : DefaultWorkerResponse → Bool
  | .Value _ => true
  | _ => false

/-- Tag test: is this response a ModuleId. -/
def DefaultWorkerResponse.isModuleId : DefaultWorkerResponse → Bool
  | .ModuleId _ => true
  | _ => false

/-- Tag test: is this response an Error. -/
def DefaultWorkerResponse.isError : DefaultWorkerResponse → Bool
  | .Error _ => true
  | _ => false

namespace sync_worker

/-- Response decoding of DefaultWorker::eval (sync, worker.rs:429-440):
fromValue models serde_json::from_value for the caller result type. -/
def eval_decode {α : Type} (fromValue : JsValue → Except Error α) :
    DefaultWorkerResponse → Except Error α
  | .Value v => fromValue v
  | .Error e => .error e
  | _ => .error protocolError

/-- Response decoding of DefaultWorker::load_main_module (sync, worker.rs:444-455). -/
def load_main_module_decode : DefaultWorkerResponse → Except Error ModuleId
  | .ModuleId id => .ok id
  | .Error e => .error e
  | _ => .error protocolError

/-- Response decoding of DefaultWorker::load_module (sync, worker.rs:459-470). -/
def load_module_decode : DefaultWorkerResponse → Except Error ModuleId
  | .ModuleId id => .ok id
  | .Error e => .error e
  | _ => .error protocolError

/-- Response decoding of DefaultWorker::call_entrypoint (sync, worker.rs:475-495). -/
def call_entrypoint_decode {α : Type} (fromValue : JsValue → Except Error α) :
    DefaultWorkerResponse → Except Error α
  | .Value v => fromValue v
  | .Error e => .error e
  | _ => .error protocolError

/-- Response decoding of DefaultWorker::call_function (sync, worker.rs:500-521). -/
def call_function_decode {α : Type} (fromValue : JsValue → Except Error α) :
    DefaultWorkerResponse → Except Error α
  | .Value v => fromValue v
  | .Error e => .error e
  | _ => .error protocolError

/-- Response decoding of DefaultWorker::get_value (sync, worker.rs:525-545). -/
def get_value_decode {α : Type} (fromValue : JsValue → Except Error α) :
    DefaultWorkerResponse → Except Error α
  | .Value v => fromValue v
  | .Error e => .error e
  | _ => .error protocolError

end sync_worker

namespace async_worker

/-- Response decoding of DefaultWorker::eval (async, worker.rs:818-829). -/
def eval_decode {α : Type} (fromValue : JsValue → Except Error α) :
    DefaultWorkerResponse → Except Error α
  | .Value v => fromValue v
  | .Error e => .error e
  | _ => .error protocolError

/-- Response decoding of DefaultWorker::load_main_module (async, worker.rs:833-843). -/
def load_main_module_decode : DefaultWorkerResponse → Except Error ModuleId
  | .ModuleId id => .ok id
  | .Error e => .error e
  | _ => .error protocolError

/-- Response decoding of DefaultWorker::load_module (async, worker.rs:847-857). -/
def load_module_decode : DefaultWorkerResponse → Except Error ModuleId
  | .ModuleId id => .ok id
  | .Error e => .error e
  | _ => .error protocolError

/-- Response decoding of DefaultWorker::call_entrypoint (async, worker.rs:862-881). -/
def call_entrypoint_decode {α : Type} (fromValue : JsValue → Except Error α) :
    DefaultWorkerResponse → Except Error α
  | .Value v => fromValue v
  | .Error e => .error e
  | _ => .error protocolError

/-- Response decoding of DefaultWorker::call_function (async, worker.rs:886-906). -/
def call_function_decode {α : Type} (fromValue : JsValue → Except Error α) :
    DefaultWorkerResponse → Except Error α
  | .Value v => fromValue v
  | .Error e => .error e
  | _ => .error protocolError

/-- Response decoding of DefaultWorker::get_value (async, worker.rs:910-929). -/
def get_value_decode {α : Type} (fromValue : JsValue → Except Error α) :
    DefaultWorkerResponse → Except Error α
  | .Value v => fromValue v
  | .Error e => .error e
  | _ => .error protocolError

end async_worker

/-- Payload carried by an abnormal thread termination (the Box of dyn Any
that std::thread::JoinHandle::join returns in its Err case): either it
downcasts to text (String or a string slice), or it does not. -/
inductive PanicPayload where
  | text (s : String)
  | nonText
deriving DecidableEq, Repr

/-- Textual content of a termination payload, if any
(the downcast chain at worker.rs:285-289). -/
def panicPayloadText : PanicPayload → Option String
  | .text s => some s
  | .nonText => none

/-- The marker string before which init-failure messages are truncated
(worker.rs:292-297), as a character list. -/
def backtraceMarker : List Char := "Stack backtrace".toList

/-- Characters of s strictly before the first occurrence of marker; all of s
when marker does not occur. This is the semantics of
s.split(marker).next() in the source for a nonempty marker. -/
def splitBefore (marker : List Char) : List Char → List Char
  | [] => []
  | c :: rest =>
    if marker.isPrefixOf (c :: rest) then [] else c :: splitBefore marker rest

/-- Removal of trailing whitespace. -/
def trimEndChars : List Char → List Char
  | [] => []
  | c :: rest =>
    match trimEndChars rest with
    | [] => if c.isWhitespace then [] else [c]
    | r => c :: r

/-- Model of str::trim: leading and trailing whitespace removed. Rust uses
the full Unicode whitespace class; Char.isWhitespace covers the ASCII part,
which is all the relevant messages contain. -/
def trimChars (s : List Char) : List Char :=
  trimEndChars (s.dropWhile Char.isWhitespace)

/-- Decidable occurrence test: does marker occur as a contiguous segment of
the list. -/
def occursInB (marker : List Char) : List Char → Bool
  | [] => marker.isEmpty
  | c :: rest => marker.isPrefixOf (c :: rest) || occursInB marker rest

/-- The sanitization applied on the init-failure path (worker.rs:280-297,
identical at worker.rs:676-693): base message from the textual payload, else
the generic message; then truncation before the backtrace marker and
whitespace trimming. -/
def sanitizeBacktrace (s : String) : String :=
  (trimChars (splitBefore backtraceMarker s.toList)).asString

/-- The full message synthesized when the thread died before signalling the
init channel: join the thread, extract a textual payload if possible, fall
back to the generic message, then sanitize. -/
def initPanicMessage (tr : Except PanicPayload Unit) : String :=
  sanitizeBacktrace
    (match tr with
     | .ok _ => "Could not start runtime thread"
     | .error p => (panicPayloadText p).getD "Could not start runtime thread")

/-- What the constructor observes from the one-shot init channel: the thread
signalled readiness, the thread reported an engine construction error, or the
channel closed with no signal (the thread died first; tr is what joining it
returns). -/
inductive InitOutcome where
  | ready
  | initFailed (e : Error)
  | crashed (tr : Except PanicPayload Unit)

namespace sync_worker

/-- Result of SyncWorker::new_inner for DefaultWorker (worker.rs:240-302),
as a function of the init handshake outcome; the successfully constructed
worker value is abstracted to Unit. -/
def new_inner : InitOutcome → Except Error Unit
  | .ready => .ok ()
  | .initFailed e => .error e
  | .crashed tr => .error (.Runtime (initPanicMessage tr))

/-- SyncWorker::init_runtime for DefaultWorker (worker.rs:304-312): construct
the engine (crate::Runtime::new, external, given here as mkRuntime) and pair
it with a fresh empty handle table. -/
def init_runtime (mkRuntime : DefaultWorkerOptions → Except Error Engine)
    (options : DefaultWorkerOptions) : Except Error SyncRuntime :=
  match mkRuntime options with
  | .ok runtime => .ok (runtime, ([] : Modules))
  | .error e => .error e

end sync_worker

namespace async_worker

/-- Result of AsyncWorker::new_inner for DefaultWorker (worker.rs:632-698):
the crash branch is textually identical to the sync one. -/
def new_inner : InitOutcome → Except Error Unit
  | .ready => .ok ()
  | .initFailed e => .error e
  | .crashed tr => .error (.Runtime (initPanicMessage tr))

end async_worker

/-- InnerWorker::join (worker.rs:59-63): wait for the thread and map an
abnormal termination, whatever its payload, to the fixed Runtime error
message. -/
def InnerWorker.join (tr : Except PanicPayload Unit) : Except Error Unit :=
  match tr with
  | .ok _ => .ok ()
  | .error _ => .error (.Runtime "Worker thread panicked")

namespace sync_worker

/-- DefaultWorker::send (sync, worker.rs:225-229) over an explicit model of
the std mpsc channel: queryReceiverAlive says whether the receiving end still
exists (it is owned by the dispatcher thread closure and dropped when the
thread function returns); pending is the channel content. Sending on a
channel whose receiver is gone fails with the std SendError, whose display
text the source turns into a Runtime error; mpsc send never blocks. -/
def send (queryReceiverAlive : Bool) (pending : List DefaultWorkerQuery)
    (q : DefaultWorkerQuery) : Except Error (List DefaultWorkerQuery) :=
  if queryReceiverAlive then .ok (pending ++ [q])
  else .error (.Runtime "sending on a closed channel")

/-- DefaultWorker::stop (sync, worker.rs:422-425; the async version at
worker.rs:811-814 is the same two lines): send a Stop query, then join the
thread. The response channel content is threaded through untouched because
stop never reads from it. -/
def stop (queryReceiverAlive : Bool) (pending : List DefaultWorkerQuery)
    (responses : List DefaultWorkerResponse) (tr : Except PanicPayload Unit) :
    Except Error Unit × List DefaultWorkerQuery × List DefaultWorkerResponse :=
  match send queryReceiverAlive pending .Stop with
  | .error e => (.error e, pending, responses)
  | .ok pending2 => (InnerWorker.join tr, pending2, responses)

end sync_worker

namespace async_worker

/-- DefaultWorker::send (async, worker.rs:609-613) over the same channel
model; the tokio unbounded sender fails exactly when the receiver is gone and
its SendError displays as the text below. -/
def send (queryReceiverAlive : Bool) (pending : List DefaultWorkerQuery)
    (q : DefaultWorkerQuery) : Except Error (List DefaultWorkerQuery) :=
  if queryReceiverAlive then .ok (pending ++ [q])
  else .error (.Runtime "channel closed")

end async_worker

/-- Is this query one of the two module-loading variants. -/
def DefaultWorkerQuery.isLoad : DefaultWorkerQuery → Bool
  | .LoadMainModule _ => true
  | .LoadModule _ => true
  | _ => false

/-- Concrete engine used for witnesses and counterexamples: every operation
succeeds deterministically. -/
def testEngine : Engine where
  eval := fun code => .ok ⟨"evaluated:" ++ code⟩
  load_module := fun _ => .ok ⟨1⟩
  call_entrypoint := fun _ _ => .ok ⟨"entry"⟩
  call_function := fun _ _ _ => .ok ⟨"function-result"⟩
  get_value := fun _ _ => .ok ⟨"value-result"⟩

/-! ### Helper lemmas: prefix and occurrence reasoning for the sanitizer -/

theorem isPrefixOf_trans : ∀ (a b c : List Char),
    a.isPrefixOf b = true → b.isPrefixOf c = true → a.isPrefixOf c = true := by
  intro a
  induction a with
  | nil => intro b c _ _; simp [List.isPrefixOf]
  | cons x xs ih =>
    intro b c h1 h2
    cases b with
    | nil => simp [List.isPrefixOf] at h1
    | cons y ys =>
      cases c with
      | nil => simp [List.isPrefixOf] at h2
      | cons z zs =>
        simp only [List.isPrefixOf, Bool.and_eq_true, beq_iff_eq] at h1 h2 ⊢
        exact ⟨h1.1.trans h2.1, ih ys zs h1.2 h2.2⟩

theorem occursInB_marker_nil : ∀ (b : List Char), occursInB [] b = true := by
  intro b
  cases b with
  | nil => rfl
  | cons c rest => simp [occursInB, List.isPrefixOf]

theorem occursInB_mono : ∀ (m a b : List Char),
    a.isPrefixOf b = true → occursInB m a = true → occursInB m b = true := by
  intro m a
  induction a with
  | nil =>
    intro b _ hocc
    cases m with
    | nil => exact occursInB_marker_nil b
    | cons c ms => simp [occursInB] at hocc
  | cons x xs ih =>
    intro b hab hocc
    cases b with
    | nil => simp [List.isPrefixOf] at hab
    | cons y ys =>
      simp only [List.isPrefixOf, Bool.and_eq_true, beq_iff_eq] at hab
      obtain ⟨hxy, hab2⟩ := hab
      subst hxy
      simp only [occursInB, Bool.or_eq_true] at hocc ⊢
      rcases hocc with hp | ho
      · left
        have hxx : (x :: xs).isPrefixOf (x :: ys) = true := by
          simp [List.isPrefixOf, hab2]
        exact isPrefixOf_trans m (x :: xs) (x :: ys) hp hxx
      · right
        exact ih ys hab2 ho

theorem trimEndChars_isPrefixOf : ∀ (l : List Char), (trimEndChars l).isPrefixOf l = true := by
  intro l
  induction l with
  | nil => rfl
  | cons c rest ih =>
    simp only [trimEndChars]
    cases hr : trimEndChars rest with
    | nil =>
      by_cases hc : c.isWhitespace
      · simp [hc, List.isPrefixOf]
      · simp [hc, List.isPrefixOf]
    | cons d ds =>
      rw [hr] at ih
      simp [List.isPrefixOf, ih]

theorem occursInB_of_trimEnd (m l : List Char)
    (h : occursInB m (trimEndChars l) = true) : occursInB m l = true :=
  occursInB_mono m (trimEndChars l) l (trimEndChars_isPrefixOf l) h

theorem occursInB_of_dropWhile (m : List Char) (p : Char → Bool) :
    ∀ (l : List Char), occursInB m (l.dropWhile p) = true → occursInB m l = true := by
  intro l
  induction l with
  | nil => intro h; simpa using h
  | cons c rest ih =>
    intro h
    by_cases hc : p c
    · rw [List.dropWhile_cons_of_pos hc] at h
      simp only [occursInB, Bool.or_eq_true]
      right
      exact ih h
    · rwa [List.dropWhile_cons_of_neg hc] at h

theorem splitBefore_isPrefixOf (m : List Char) : ∀ (s : List Char),
    (splitBefore m s).isPrefixOf s = true := by
  intro s
  induction s with
  | nil => rfl
  | cons c rest ih =>
    simp only [splitBefore]
    cases hc : m.isPrefixOf (c :: rest) with
    | true => simp [hc, List.isPrefixOf]
    | false => simp [hc, List.isPrefixOf, ih]

theorem occursInB_splitBefore (m : List Char) (hm : m ≠ []) :
    ∀ (s : List Char), occursInB m (splitBefore m s) = false := by
  intro s
  induction s with
  | nil =>
    cases m with
    | nil => exact absurd rfl hm
    | cons c ms => rfl
  | cons c rest ih =>
    simp only [splitBefore]
    cases hc : m.isPrefixOf (c :: rest) with
    | true =>
      simp only [hc, if_true]
      cases m with
      | nil => exact absurd rfl hm
      | cons d ms => rfl
    | false =>
      simp only [hc, Bool.false_eq_true, if_false]
      simp only [occursInB, Bool.or_eq_false_iff]
      constructor
      · cases hp : m.isPrefixOf (c :: splitBefore m rest) with
        | false => rfl
        | true =>
          exfalso
          have hcons : (c :: splitBefore m rest).isPrefixOf (c :: rest) = true := by
            simp [List.isPrefixOf, splitBefore_isPrefixOf m rest]
          have hres := isPrefixOf_trans m _ _ hp hcons
          rw [hc] at hres
          exact Bool.noConfusion hres
      · exact ih

theorem occursInB_sanitizeBacktrace (s : String) :
    occursInB backtraceMarker (sanitizeBacktrace s).toList = false := by
  have hm : backtraceMarker ≠ [] := by decide
  show occursInB backtraceMarker (trimChars (splitBefore backtraceMarker s.toList)) = false
  cases hocc : occursInB backtraceMarker (trimChars (splitBefore backtraceMarker s.toList)) with
  | false => rfl
  | true =>
    exfalso
    have h1 : occursInB backtraceMarker
        ((splitBefore backtraceMarker s.toList).dropWhile Char.isWhitespace) = true :=
      occursInB_of_trimEnd _ _ hocc
    have h2 : occursInB backtraceMarker (splitBefore backtraceMarker s.toList) = true :=
      occursInB_of_dropWhile _ _ _ h1
    have h3 := occursInB_splitBefore backtraceMarker hm s.toList
    rw [h3] at h2
    exact Bool.noConfusion h2

/-! ### Helper lemmas: dispatcher loop and handle table -/

theorem thread_cons_ne_stop (rt : SyncRuntime) (q : DefaultWorkerQuery)
    (qs : List DefaultWorkerQuery) (h : q ≠ DefaultWorkerQuery.Stop) :
    sync_worker.thread true rt (q :: qs) =
      match sync_worker.thread true (sync_worker.handle_query rt q).2 qs with
      | .finished rs => .finished ((sync_worker.handle_query rt q).1 :: rs)
      | .panicked => .panicked := by
  cases q with
  | Stop => exact absurd rfl h
  | Eval code => rfl
  | LoadMainModule mo => rfl
  | LoadModule mo => rfl
  | CallEntrypoint id args => rfl
  | CallFunction id name args => rfl
  | GetValue id name => rfl

theorem thread_true_finishes : ∀ (qs : List DefaultWorkerQuery) (rt : SyncRuntime),
    ∃ rs, sync_worker.thread true rt qs = .finished rs := by
  intro qs
  induction qs with
  | nil => intro rt; exact ⟨[], rfl⟩
  | cons q qs ih =>
    intro rt
    by_cases hq : q = DefaultWorkerQuery.Stop
    · subst hq; exact ⟨[.Ok], rfl⟩
    · obtain ⟨rs, hrs⟩ := ih (sync_worker.handle_query rt q).2
      refine ⟨(sync_worker.handle_query rt q).1 :: rs, ?_⟩
      rw [thread_cons_ne_stop rt q qs hq, hrs]

theorem get_isSome_insert (mods : Modules) (k id : ModuleId) (h : ModuleHandle)
    (hk : (mods.get? k).isSome = true) :
    ((mods.insert id h).get? k).isSome = true := by
  simp only [Modules.get?, Modules.insert, List.lookup]
  cases hkk : (k == id) with
  | true => rfl
  | false => exact hk

theorem handle_query_modules_eq (e : Engine) (mods : Modules) (q : DefaultWorkerQuery)
    (hq : q.isLoad = false) :
    (sync_worker.handle_query (e, mods) q).2.2 = mods := by
  cases q with
  | Stop => rfl
  | Eval code =>
    cases he : e.eval code <;> simp [sync_worker.handle_query, he]
  | LoadMainModule mo => simp [DefaultWorkerQuery.isLoad] at hq
  | LoadModule mo => simp [DefaultWorkerQuery.isLoad] at hq
  | CallEntrypoint id args =>
    cases hm : mods.get? id with
    | none => simp [sync_worker.handle_query, hm]
    | some handle =>
      cases hc : e.call_entrypoint handle args <;> simp [sync_worker.handle_query, hm, hc]
  | CallFunction id name args =>
    cases id with
    | none =>
      cases hc : e.call_function none name args <;> simp [sync_worker.handle_query, hc]
    | some mid =>
      cases hm : mods.get? mid with
      | none => simp [sync_worker.handle_query, hm]
      | some handle =>
        cases hc : e.call_function (some handle) name args <;>
          simp [sync_worker.handle_query, hm, hc]
  | GetValue id name =>
    cases id with
    | none =>
      cases hc : e.get_value none name <;> simp [sync_worker.handle_query, hc]
    | some mid =>
      cases hm : mods.get? mid with
      | none => simp [sync_worker.handle_query, hm]
      | some handle =>
        cases hc : e.get_value (some handle) name <;>
          simp [sync_worker.handle_query, hm, hc]

/-! ### Claim theorems -/

/-- C1, counterexample: the claim asserts that both workers exit their
dispatcher loop after acknowledging a Stop and never process a query queued
after it. On the async worker, running the loop on the queue [Stop, Eval]
produces two responses: the Eval queued after the Stop was processed, so the
claim is false as stated. -/
theorem claim_C1_counterexample :
    async_worker.threadLoop true (testEngine, []) [.Stop, .Eval "1+1"]
        = [.Ok, .Value ⟨"evaluated:1+1"⟩]
    ∧ ([DefaultWorkerResponse.Ok, .Value ⟨"evaluated:1+1"⟩]
        ≠ [DefaultWorkerResponse.Ok]) :=
  ⟨rfl, by decide⟩

/-- C1, amended: the sync worker dispatcher, once it dequeues Stop, sends
exactly one acknowledgement and exits the loop, processing nothing queued
after the Stop; the async worker dispatcher sends one acknowledgement for
Stop but does not exit: it keeps processing the queries queued after it. -/
theorem claim_C1_amended :
    (∀ (rt : SyncRuntime) (qs : List DefaultWorkerQuery),
        sync_worker.thread true rt (.Stop :: qs) = .finished [.Ok])
    ∧ (∀ (art : AsyncRuntime) (qs : List DefaultWorkerQuery),
        async_worker.threadLoop true art (.Stop :: qs)
          = .Ok :: async_worker.threadLoop true art qs) := by
  constructor
  · intro rt qs; rfl
  · intro art qs
    obtain ⟨e, mods⟩ := art
    rfl

/-- C2, counterexample: the claim asserts that stop() receives the Ack and
sanitizes a panic payload with the constructor rule. At a concrete panic
payload, stop() leaves the Ack unread in the response channel and returns the
fixed message, which differs from what the sanitization rule would give. -/
theorem claim_C2_counterexample :
    sync_worker.stop true [] [DefaultWorkerResponse.Ok]
        (.error (.text "boom Stack backtrace: frame1"))
      = (.error (.Runtime "Worker thread panicked"),
         [DefaultWorkerQuery.Stop], [DefaultWorkerResponse.Ok])
    ∧ initPanicMessage (.error (.text "boom Stack backtrace: frame1")) = "boom"
    ∧ ("Worker thread panicked" : String) ≠ "boom" :=
  ⟨rfl, by decide, by decide⟩

/-- C2, amended: stop() sends a Stop query and then joins the background
thread without reading the response channel (the Ack stays queued there); a
panicking thread is reported as the fixed Runtime error message, independent
of the panic payload and without the sanitization used by the constructor. -/
theorem claim_C2_amended :
    (∀ (pending : List DefaultWorkerQuery) (responses : List DefaultWorkerResponse)
        (tr : Except PanicPayload Unit),
        sync_worker.stop true pending responses tr =
          ((match tr with
            | .ok _ => .ok ()
            | .error _ => .error (.Runtime "Worker thread panicked")),
           pending ++ [.Stop], responses))
    ∧ (∀ (p q : PanicPayload),
        InnerWorker.join (.error p) = InnerWorker.join (.error q)) := by
  constructor
  · intro pending responses tr
    cases tr <;> rfl
  · intro p q; rfl

/-- C4, counterexample: the claim asserts the synthesized init-failure
message is always a single-line summary. A panic payload whose text contains
a newline before any backtrace marker is returned verbatim, newline included,
so the message is not single-line. -/
theorem claim_C4_counterexample :
    sync_worker.new_inner (.crashed (.error (.text "a\nb")))
        = .error (.Runtime "a\nb")
    ∧ ('\n' ∈ ("a\nb").toList) :=
  ⟨rfl, by decide⟩

/-- C4, amended: when the thread dies before signalling the init channel,
new_inner (sync and async alike) returns an Err whose message is the textual
panic payload if there is one, otherwise the generic message, truncated
before the first occurrence of the backtrace marker and whitespace-trimmed;
the result never contains the backtrace marker, but it can span several lines
when the payload does. -/
theorem claim_C4_amended :
    (∀ (tr : Except PanicPayload Unit),
        sync_worker.new_inner (.crashed tr) = .error (.Runtime (initPanicMessage tr)))
    ∧ (∀ (tr : Except PanicPayload Unit),
        async_worker.new_inner (.crashed tr) = .error (.Runtime (initPanicMessage tr)))
    ∧ (∀ (s : String), initPanicMessage (.error (.text s)) = sanitizeBacktrace s)
    ∧ (initPanicMessage (.error .nonText) = "Could not start runtime thread")
    ∧ (∀ (tr : Except PanicPayload Unit),
        occursInB backtraceMarker (initPanicMessage tr).toList = false) := by
  refine ⟨fun tr => rfl, fun tr => rfl, fun s => rfl, by decide, fun tr => ?_⟩
  exact occursInB_sanitizeBacktrace _

/-- C6, counterexample: the claim quotes the error message as
"module not found"; the dispatcher actually answers with
"Module not found" (capital M), shown here at a concrete unknown handle. -/
theorem claim_C6_counterexample :
    sync_worker.handle_query (testEngine, []) (.CallFunction (some 5) "f" [])
        = (.Error (.Runtime "Module not found"), (testEngine, []))
    ∧ Error.Runtime "Module not found" ≠ Error.Runtime "module not found" :=
  ⟨rfl, by decide⟩

/-- C6, amended: for a handle id absent from the table, CallEntrypoint,
CallFunction and GetValue queries are answered, in both workers, with the
engine-level error response Runtime "Module not found" (capital M), the
engine is never invoked (the answer and the state are the same for every
engine, and the state is unchanged), and the adapters propagate this Error
response verbatim instead of turning it into a protocol error. -/
theorem claim_C6_amended (e : Engine) (mods : Modules) (id : ModuleId)
    (name : String) (args : List JsValue) (h : mods.get? id = none) :
    sync_worker.handle_query (e, mods) (.CallEntrypoint id args)
        = (.Error (.Runtime "Module not found"), (e, mods))
    ∧ sync_worker.handle_query (e, mods) (.CallFunction (some id) name args)
        = (.Error (.Runtime "Module not found"), (e, mods))
    ∧ sync_worker.handle_query (e, mods) (.GetValue (some id) name)
        = (.Error (.Runtime "Module not found"), (e, mods))
    ∧ async_worker.handle_query (e, mods) (.CallEntrypoint id args)
        = (.Error (.Runtime "Module not found"), (e, mods))
    ∧ async_worker.handle_query (e, mods) (.CallFunction (some id) name args)
        = (.Error (.Runtime "Module not found"), (e, mods))
    ∧ async_worker.handle_query (e, mods) (.GetValue (some id) name)
        = (.Error (.Runtime "Module not found"), (e, mods))
    ∧ (∀ (err : Error),
        sync_worker.call_function_decode (fun v => (Except.ok v : Except Error JsValue))
          (.Error err) = .error err)
    ∧ Error.Runtime "Module not found" ≠ protocolError := by
  refine ⟨?_, ?_, ?_, ?_, ?_, ?_, fun err => rfl, by decide⟩
  all_goals simp [sync_worker.handle_query, async_worker.handle_query, h]

/-- C6, witness for the amended theorem at a concrete empty table. -/
theorem claim_C6_witness :
    sync_worker.handle_query (testEngine, []) (.CallEntrypoint 7 [])
        = (.Error (.Runtime "Module not found"), (testEngine, [])) :=
  (claim_C6_amended testEngine [] 7 "g" [] rfl).1

/-- C8: once the dispatcher thread function has returned, its query receiver
is dropped with it; the sync thread function does return right after
acknowledging a Stop, and a send on the closed query channel then fails at
once with the channel-closed error of the respective channel library, for
both adapters, instead of blocking. -/
theorem claim_C8 :
    (∀ (rt : SyncRuntime) (qs : List DefaultWorkerQuery),
        sync_worker.thread true rt (.Stop :: qs) = .finished [.Ok])
    ∧ (∀ (pending : List DefaultWorkerQuery) (q : DefaultWorkerQuery),
        sync_worker.send false pending q
          = .error (.Runtime "sending on a closed channel"))
    ∧ (∀ (pending : List DefaultWorkerQuery) (q : DefaultWorkerQuery),
        async_worker.send false pending q = .error (.Runtime "channel closed")) :=
  ⟨fun _ _ => rfl, fun _ _ => rfl, fun _ _ => rfl⟩

/-- C9: the dispatcher treats LoadMainModule and LoadModule identically, in
both workers: the two query variants are answered by exactly the same
computation (same engine load call, same table insertion, same ModuleId
response), spelled out by the third conjunct. -/
theorem claim_C9 (rt : SyncRuntime) (art : AsyncRuntime) (mo : Module) :
    sync_worker.handle_query rt (.LoadMainModule mo)
        = sync_worker.handle_query rt (.LoadModule mo)
    ∧ async_worker.handle_query art (.LoadMainModule mo)
        = async_worker.handle_query art (.LoadModule mo)
    ∧ (∀ (e : Engine) (mods : Modules),
        sync_worker.handle_query (e, mods) (.LoadMainModule mo)
          = match e.load_module mo with
            | .ok h => (.ModuleId h.id, (e, mods.insert h.id h))
            | .error err => (.Error err, (e, mods))) := by
  obtain ⟨e1, m1⟩ := rt
  obtain ⟨e2, m2⟩ := art
  exact ⟨rfl, rfl, fun e mods => rfl⟩

/-- C10: in the sync dispatcher loop the response send is unwrapped, so when
the response receiver is gone and a query is dequeued the thread terminates
abnormally instead of exiting cleanly (for both the custom loop and the
default trait loop), while with the receiver alive the custom loop always
finishes normally. -/
theorem claim_C10 :
    (∀ (rt : SyncRuntime) (q : DefaultWorkerQuery) (qs : List DefaultWorkerQuery),
        sync_worker.thread false rt (q :: qs) = .panicked)
    ∧ (∀ (rt : SyncRuntime) (q : DefaultWorkerQuery) (qs : List DefaultWorkerQuery),
        sync_worker.default_thread false rt (q :: qs) = .panicked)
    ∧ (∀ (rt : SyncRuntime) (qs : List DefaultWorkerQuery),
        ∃ rs, sync_worker.thread true rt qs = .finished rs) := by
  refine ⟨?_, ?_, ?_⟩
  · intro rt q qs
    cases q <;> rfl
  · intro rt q qs; rfl
  · intro rt qs
    exact thread_true_finishes qs rt

/-- C3: for a queue of non-Stop queries followed by Stop, the sync dispatcher
loop finishes with exactly one response per query, in queue order, each being
handle_query applied to the corresponding query in the threaded state,
followed by exactly one acknowledgement for the Stop. -/
theorem claim_C3 (rt : SyncRuntime) (qs : List DefaultWorkerQuery)
    (h : ∀ q ∈ qs, q ≠ DefaultWorkerQuery.Stop) :
    sync_worker.thread true rt (qs ++ [.Stop])
        = .finished (sync_worker.processQueries rt qs ++ [.Ok])
    ∧ (sync_worker.processQueries rt qs).length = qs.length := by
  induction qs generalizing rt with
  | nil => exact ⟨rfl, rfl⟩
  | cons q qs ih =>
    have hq : q ≠ DefaultWorkerQuery.Stop := h q (List.mem_cons_self q qs)
    have hrest : ∀ x ∈ qs, x ≠ DefaultWorkerQuery.Stop :=
      fun x hx => h x (List.mem_cons_of_mem q hx)
    obtain ⟨ih1, ih2⟩ := ih (sync_worker.handle_query rt q).2 hrest
    constructor
    · rw [List.cons_append, thread_cons_ne_stop rt q (qs ++ [DefaultWorkerQuery.Stop]) hq, ih1]
      rfl
    · simp [sync_worker.processQueries, ih2]

/-- C3, witness at a concrete two-query queue on the test engine. -/
theorem claim_C3_witness :
    (∀ q ∈ [DefaultWorkerQuery.Eval "x", DefaultWorkerQuery.GetValue none "y"],
        q ≠ DefaultWorkerQuery.Stop)
    ∧ (sync_worker.thread true (testEngine, [])
          ([DefaultWorkerQuery.Eval "x", DefaultWorkerQuery.GetValue none "y"] ++ [.Stop])
        = .finished (sync_worker.processQueries (testEngine, [])
            [DefaultWorkerQuery.Eval "x", DefaultWorkerQuery.GetValue none "y"] ++ [.Ok])
       ∧ (sync_worker.processQueries (testEngine, [])
            [DefaultWorkerQuery.Eval "x", DefaultWorkerQuery.GetValue none "y"]).length
          = [DefaultWorkerQuery.Eval "x", DefaultWorkerQuery.GetValue none "y"].length) :=
  ⟨by decide, claim_C3 (testEngine, [])
      [DefaultWorkerQuery.Eval "x", DefaultWorkerQuery.GetValue none "y"] (by decide)⟩

/-- C5: in every public adapter operation of both workers, a received
response whose tag is neither the expected one (Value for eval, the calls and
get_value; ModuleId for the two loads) nor Error is answered with the
distinct protocol error instead of being coerced into the result type. -/
theorem claim_C5 (α : Type) (fromValue : JsValue → Except Error α)
    (r : DefaultWorkerResponse) :
    (r.isValue = false → r.isError = false →
      sync_worker.eval_decode fromValue r = .error protocolError
      ∧ sync_worker.call_entrypoint_decode fromValue r = .error protocolError
      ∧ sync_worker.call_function_decode fromValue r = .error protocolError
      ∧ sync_worker.get_value_decode fromValue r = .error protocolError
      ∧ async_worker.eval_decode fromValue r = .error protocolError
      ∧ async_worker.call_entrypoint_decode fromValue r = .error protocolError
      ∧ async_worker.call_function_decode fromValue r = .error protocolError
      ∧ async_worker.get_value_decode fromValue r = .error protocolError)
    ∧ (r.isModuleId = false → r.isError = false →
      sync_worker.load_main_module_decode r = .error protocolError
      ∧ sync_worker.load_module_decode r = .error protocolError
      ∧ async_worker.load_main_module_decode r = .error protocolError
      ∧ async_worker.load_module_decode r = .error protocolError) := by
  cases r with
  | Value v =>
    exact ⟨fun h _ => (nomatch h), fun _ _ => ⟨rfl, rfl, rfl, rfl⟩⟩
  | ModuleId id =>
    exact ⟨fun _ _ => ⟨rfl, rfl, rfl, rfl, rfl, rfl, rfl, rfl⟩, fun h _ => (nomatch h)⟩
  | Ok =>
    exact ⟨fun _ _ => ⟨rfl, rfl, rfl, rfl, rfl, rfl, rfl, rfl⟩,
           fun _ _ => ⟨rfl, rfl, rfl, rfl⟩⟩
  | Error e =>
    exact ⟨fun _ h => (nomatch h), fun _ h => (nomatch h)⟩

/-- C5, witness at the concrete Ok response, which is neither a Value nor a
ModuleId nor an Error. -/
theorem claim_C5_witness :
    sync_worker.eval_decode (fun v => (Except.ok v : Except Error JsValue))
        DefaultWorkerResponse.Ok = .error protocolError
    ∧ sync_worker.load_main_module_decode DefaultWorkerResponse.Ok
        = .error protocolError := by
  have h := claim_C5 JsValue (fun v => Except.ok v) DefaultWorkerResponse.Ok
  exact ⟨(h.1 rfl rfl).1, (h.2 rfl rfl).1⟩

/-- C7: the handle table starts empty when the runtime is initialized; the
only change any query ever makes to it is the insertion performed by a
successful LoadMainModule or LoadModule; no query removes an entry (every
present key stays present); and every non-load query leaves the table
unchanged. -/
theorem claim_C7 :
    (∀ (mk : DefaultWorkerOptions → Except Error Engine) (o : DefaultWorkerOptions)
        (rt : SyncRuntime),
        sync_worker.init_runtime mk o = .ok rt → rt.2 = ([] : Modules))
    ∧ (∀ (e : Engine) (mods : Modules) (q : DefaultWorkerQuery),
        (sync_worker.handle_query (e, mods) q).2.2 = mods
        ∨ ∃ (mo : Module) (hdl : ModuleHandle),
            (q = .LoadMainModule mo ∨ q = .LoadModule mo)
            ∧ e.load_module mo = .ok hdl
            ∧ (sync_worker.handle_query (e, mods) q).2.2 = mods.insert hdl.id hdl)
    ∧ (∀ (e : Engine) (mods : Modules) (q : DefaultWorkerQuery) (k : ModuleId),
        (mods.get? k).isSome = true →
        (((sync_worker.handle_query (e, mods) q).2.2).get? k).isSome = true)
    ∧ (∀ (e : Engine) (mods : Modules) (q : DefaultWorkerQuery),
        q.isLoad = false → (sync_worker.handle_query (e, mods) q).2.2 = mods) := by
  refine ⟨?_, ?_, ?_, fun e mods q hq => handle_query_modules_eq e mods q hq⟩
  · intro mk o rt h
    cases hmk : mk o with
    | ok eng =>
      simp only [sync_worker.init_runtime, hmk] at h
      cases h
      rfl
    | error err => simp [sync_worker.init_runtime, hmk] at h
  · intro e mods q
    cases q with
    | LoadMainModule mo =>
      cases he : e.load_module mo with
      | ok hdl =>
        right
        exact ⟨mo, hdl, Or.inl rfl, he, by simp [sync_worker.handle_query, he]⟩
      | error err =>
        left; simp [sync_worker.handle_query, he]
    | LoadModule mo =>
      cases he : e.load_module mo with
      | ok hdl =>
        right
        exact ⟨mo, hdl, Or.inr rfl, he, by simp [sync_worker.handle_query, he]⟩
      | error err =>
        left; simp [sync_worker.handle_query, he]
    | Stop => exact Or.inl (handle_query_modules_eq e mods .Stop rfl)
    | Eval code => exact Or.inl (handle_query_modules_eq e mods (.Eval code) rfl)
    | CallEntrypoint id args =>
      exact Or.inl (handle_query_modules_eq e mods (.CallEntrypoint id args) rfl)
    | CallFunction id name args =>
      exact Or.inl (handle_query_modules_eq e mods (.CallFunction id name args) rfl)
    | GetValue id name =>
      exact Or.inl (handle_query_modules_eq e mods (.GetValue id name) rfl)
  · intro e mods q k hk
    cases q with
    | LoadMainModule mo =>
      cases he : e.load_module mo with
      | ok hdl =>
        have ht : (sync_worker.handle_query (e, mods) (.LoadMainModule mo)).2.2
            = mods.insert hdl.id hdl := by simp [sync_worker.handle_query, he]
        rw [ht]
        exact get_isSome_insert mods k hdl.id hdl hk
      | error err =>
        have ht : (sync_worker.handle_query (e, mods) (.LoadMainModule mo)).2.2 = mods := by
          simp [sync_worker.handle_query, he]
        rw [ht]; exact hk
    | LoadModule mo =>
      cases he : e.load_module mo with
      | ok hdl =>
        have ht : (sync_worker.handle_query (e, mods) (.LoadModule mo)).2.2
            = mods.insert hdl.id hdl := by simp [sync_worker.handle_query, he]
        rw [ht]
        exact get_isSome_insert mods k hdl.id hdl hk
      | error err =>
        have ht : (sync_worker.handle_query (e, mods) (.LoadModule mo)).2.2 = mods := by
          simp [sync_worker.handle_query, he]
        rw [ht]; exact hk
    | Stop => rw [handle_query_modules_eq e mods .Stop rfl]; exact hk
    | Eval code => rw [handle_query_modules_eq e mods (.Eval code) rfl]; exact hk
    | CallEntrypoint id args =>
      rw [handle_query_modules_eq e mods (.CallEntrypoint id args) rfl]; exact hk
    | CallFunction id name args =>
      rw [handle_query_modules_eq e mods (.CallFunction id name args) rfl]; exact hk
    | GetValue id name =>
      rw [handle_query_modules_eq e mods (.GetValue id name) rfl]; exact hk

/-- C7, witness: the initialized table is empty, and an Eval query on a table
holding key 1 keeps key 1 present. -/
theorem claim_C7_witness :
    ((testEngine, ([] : Modules)) : SyncRuntime).2 = ([] : Modules)
    ∧ (((sync_worker.handle_query (testEngine, [(1, ⟨1⟩)]) (.Eval "x")).2.2).get? 1).isSome
        = true := by
  constructor
  · exact claim_C7.1 (fun _ => .ok testEngine) ⟨none, 5⟩ (testEngine, []) rfl
  · exact claim_C7.2.2.1 testEngine [(1, ⟨1⟩)] (.Eval "x") 1 rfl

end Rustyscript
